import Mathlib

/-!
Verification of the address-matcher waterfall engine.

Shallow embedding of the matching pipeline:
  - `match.py`    : `exact_match`, `fuzzy_match`
  - `fallback.py` : `phonetic_match`, `embedding_match`, `api_match`
  - `main.py`     : the per-row waterfall of `match_all` (embedded as `matchOne`)

Modelling conventions:
  - SQL rows of `raw_addresses` are `CandRow`; the table is a `List CandRow`
    in table order (`.first()` becomes `List.find?`).
  - A row of `parsed_transactions` is `Parsed`; all fields are strings, with
    absent values as `""` (as produced by `parse.py`).
  - Python truthiness of an hhid value (`if hhid:`) is `pyTruthy`:
    `None` and `0` are falsy.
  - The double-metaphone primary code (external `metaphone` library) is an
    oracle parameter `dm : String → String`.
  - The sentence-embedding model plus cosine similarity (external libraries)
    is an oracle parameter `sim : String → String → ℚ` applied to the two
    strings the code encodes.
  - The external validator HTTP call is an `ApiOutcome`: either a
    request/transport error or a parsed JSON body (list of results).
  - `rapidfuzz.fuzz.token_sort_ratio` and `fuzz.token_set_ratio` are embedded
    from rapidfuzz's documented pure algorithms; `fuzz.ratio` is the
    normalized InDel similarity, `100 * (1 - dist/(m+n)) = 200*lcs/(m+n)`.
  - Python `round(x, 2)` is `pyRound2` (round half to even at 2 decimals).
  - Scores are `ℚ`.
-/

set_option maxRecDepth 8000

/-- Python `str.strip()` on the character list: drop whitespace from both ends. -/
def pyStripList (l : List Char) : List Char :=
  ((l.dropWhile Char.isWhitespace).reverse.dropWhile Char.isWhitespace).reverse

/-- Python `str.strip()`. -/
def pyStrip (s : String) : String :=
  ⟨pyStripList s.data⟩

/-- Python `str.upper()` (ASCII case mapping suffices for this data). -/
def pyUpper (s : String) : String :=
  ⟨s.data.map Char.toUpper⟩

/-- Splitting a character list into maximal nonempty whitespace-free runs:
the helper carries the (reversed) current run. -/
def splitRuns (acc : List Char) : List Char → List String
  | [] => if acc = [] then [] else [⟨acc.reverse⟩]
  | c :: cs =>
    if c.isWhitespace then
      if acc = [] then splitRuns [] cs else ⟨acc.reverse⟩ :: splitRuns [] cs
    else splitRuns (c :: acc) cs

/-- Python `str.split()` with no argument: maximal nonempty whitespace-free runs. -/
def pySplit (s : String) : List String :=
  splitRuns [] s.data

/-- Python `' '.join(t for t in tokens if t)`. -/
def joinNE (l : List String) : String :=
  String.intercalate " " (l.filter (fun t => t != ""))

/-- Inner recursion for `lcsLen`: given `f` computing the LCS length of the
tail `as` against any list, compute the LCS length of `a :: as` against the
second argument. -/
def lcsAux (f : List Char → Nat) (a : Char) : List Char → Nat
  | [] => 0
  | b :: bs => if a = b then f bs + 1 else max (lcsAux f a bs) (f (b :: bs))

/-- Length of a longest common subsequence of two character lists. -/
def lcsLen : List Char → List Char → Nat
  | [], _ => 0
  | a :: as, bs => lcsAux (lcsLen as) a bs

/-- `fuzz.ratio`: normalized InDel similarity on a 0–100 scale.
The InDel distance is `m + n - 2·lcs`, so the similarity is `200·lcs/(m+n)`;
two empty strings score 100. -/
def simRatio (a b : String) : ℚ :=
  let m := a.length
  let n := b.length
  if m + n = 0 then 100 else (200 * lcsLen a.data b.data : ℚ) / (m + n)

/-- Lexicographic comparison of character lists by code point, the order
Python's `sorted` uses on strings. -/
def lexLe : List Char → List Char → Bool
  | [], _ => true
  | _ :: _, [] => false
  | a :: as, b :: bs =>
    if a < b then true
    else if b < a then false
    else lexLe as bs

/-- Lexicographic-by-code-point order on strings, as a proposition. -/
def rStrLe (a b : String) : Prop :=
  lexLe a.data b.data = true

instance : DecidableRel rStrLe :=
  fun a b => (inferInstance : Decidable (lexLe a.data b.data = true))

/-- Python `sorted(s.split())` (lexicographic string order, as `sorted` uses;
insertion sort is stable, like `sorted`). -/
def sortTokens (s : String) : List String :=
  List.insertionSort rStrLe (pySplit s)

/-- `fuzz.token_sort_ratio`: sort the whitespace tokens of each side, join with
single spaces, then take `fuzz.ratio`. -/
def token_sort_ratio (s t : String) : ℚ :=
  simRatio (String.intercalate " " (sortTokens s)) (String.intercalate " " (sortTokens t))

/-- Python `sorted(set(s.split()))`: sorted duplicate-free token list. -/
def sortedDedup (s : String) : List String :=
  (sortTokens s).dedup

/-- `fuzz.token_set_ratio`, following rapidfuzz's pure algorithm: split both
sides into token sets; empty side scores 0; if the sets intersect and one is
contained in the other, score 100; otherwise compare the joined difference
strings and cap with the two one-sided ratios. -/
def token_set_ratio (s t : String) : ℚ :=
  let ta := sortedDedup s
  let tb := sortedDedup t
  if ta = [] ∨ tb = [] then 0
  else
    let inter := ta.filter (fun x => tb.contains x)
    let dab := ta.filter (fun x => !tb.contains x)
    let dba := tb.filter (fun x => !ta.contains x)
    if inter ≠ [] ∧ (dab = [] ∨ dba = []) then 100
    else
      let sab := String.intercalate " " dab
      let sba := String.intercalate " " dba
      let abL : ℚ := sab.length
      let baL : ℚ := sba.length
      let sectN := (String.intercalate " " inter).length
      let sectL : ℚ := sectN
      let bonus : ℚ := if sectN = 0 then 0 else 1
      let sectAbLen := sectL + bonus + abL
      let sectBaLen := sectL + bonus + baL
      let dist : ℚ := (sab.length + sba.length - 2 * lcsLen sab.data sba.data : ℕ)
      let res1 := 1 - dist / (sectAbLen + sectBaLen)
      let res2 := 1 - (bonus + abL) / (sectL + sectAbLen)
      let res3 := 1 - (bonus + baL) / (sectL + sectBaLen)
      100 * max res1 (max res2 res3)

/-- `round_half_even`: round to the nearest integer, ties to the even integer
(the rounding used by Python's `round`). -/
def roundHalfEven (y : ℚ) : ℤ :=
  if y - ⌊y⌋ < 1 / 2 then ⌊y⌋
  else if 1 / 2 < y - ⌊y⌋ then ⌊y⌋ + 1
  else if ⌊y⌋ % 2 = 0 then ⌊y⌋ else ⌊y⌋ + 1

/-- Python `round(x, 2)`. -/
def pyRound2 (x : ℚ) : ℚ :=
  (roundHalfEven (100 * x) : ℚ) / 100

/-- One row of the canonical `raw_addresses` table. -/
structure CandRow where
  hhid : Nat
  house : String
  predir : String
  street : String
  strtype : String
  postdir : String
  apttype : String
  aptnbr : String
  address : String
  zip : String
deriving DecidableEq

/-- One parsed transaction row, as built by `parse.py` (`parse_address`) and
extended with city/state/zip in `main.py` (`parse_all`); every field is a
string, with `""` for absent components. -/
structure Parsed where
  street_number : String
  predir : String
  street_name : String
  street_type : String
  postdir : String
  apt_type : String
  unit : String
  original_address : String
  city : String
  state : String
  zip_code : String
deriving DecidableEq

/-- Python truthiness of an hhid taken from the database (`if hhid:`):
`None` and `0` are falsy. -/
def pyTruthy : Option Nat → Bool
  | none => false
  | some n => n != 0

/-- The WHERE predicate of `exact_match`'s SQL, per row (match.py lines 11-30). -/
def exactPredB (p : Parsed) (r : CandRow) : Bool :=
  (r.house == p.street_number)
    && ((r.predir == p.predir) || (r.predir == "" && p.predir == ""))
    && (r.street == p.street_name)
    && (r.strtype == p.street_type)
    && ((r.postdir == p.postdir) || (r.postdir == "" && p.postdir == ""))
    && ((r.apttype == p.apt_type && r.aptnbr == p.unit)
        || (p.apt_type == "" && p.unit == "" && r.apttype == "" && r.aptnbr == ""))

/-- `match.exact_match`: first row satisfying the structural predicate, with
confidence 1.0; otherwise `(None, 0.0)`. -/
def exact_match (store : List CandRow) (p : Parsed) : Option Nat × ℚ :=
  match store.find? (fun r => exactPredB p r) with
  | some r => (some r.hhid, 1)
  | none => (none, 0)

/-- The blocking query `WHERE house = :num` (table order preserved). -/
def sameHouse (store : List CandRow) (num : String) : List CandRow :=
  store.filter (fun r => r.house == num)

/-- The parsed full street string of `fuzzy_match`/`phonetic_match`/
`embedding_match`: join the nonempty tokens, then uppercase. -/
def parsedFullStr (p : Parsed) : String :=
  pyUpper (joinNE [p.predir, p.street_name, p.street_type, p.postdir])

/-- The canonical full street string built per candidate in `fuzzy_match`. -/
def canonFullStr (r : CandRow) : String :=
  pyUpper (joinNE [r.predir, r.street, r.strtype, r.postdir])

/-- The fuzzy similarity the loop of `fuzzy_match` computes for a candidate. -/
def candScore (p : Parsed) (r : CandRow) : ℚ :=
  token_sort_ratio (parsedFullStr p) (canonFullStr r)

/-- The best-match tracker of `fuzzy_match` (`best = {...}`). -/
structure Best where
  hhid : Option Nat
  score : ℚ
  apttype : String
  aptnbr : String
deriving DecidableEq

/-- The initial tracker value of `fuzzy_match`. -/
def best0 : Best := ⟨none, 0, "", ""⟩

/-- The candidate loop of `fuzzy_match`: keep the strictly higher-scoring
candidate (first maximum wins on ties). -/
def fuzzyBest (p : Parsed) : List CandRow → Best → Best
  | [], b => b
  | r :: rs, b =>
    fuzzyBest p rs
      (if candScore p r > b.score then ⟨some r.hhid, candScore p r, r.apttype, r.aptnbr⟩ else b)

/-- `match.fuzzy_match`: block on the stripped street number, track the best
token-sort score over same-house candidates, and accept only if the best score
reaches the threshold and the parsed unit equals the best candidate's unit
number. -/
def fuzzy_match (store : List CandRow) (p : Parsed) (thr : ℚ) : Option Nat × ℚ :=
  let num := pyStrip p.street_number
  if num = "" then (none, 0)
  else
    let b := fuzzyBest p (sameHouse store num) best0
    if thr ≤ b.score ∧ p.unit = b.aptnbr then (b.hhid, pyRound2 b.score) else (none, 0)

/-- The scoring loop of `phonetic_match`: best `token_set_ratio` of the parsed
full street string against each candidate's uppercased display address. -/
def phoneticBest (pf : String) : List CandRow → Option Nat × ℚ → Option Nat × ℚ
  | [], b => b
  | r :: rs, b =>
    phoneticBest pf rs
      (if token_set_ratio pf (pyUpper r.address) > b.2
       then (some r.hhid, token_set_ratio pf (pyUpper r.address)) else b)

/-- `fallback.phonetic_match`: block on house number, filter candidates whose
street shares the double-metaphone primary code `dm`, filter on unit when the
parsed unit is nonempty, then accept the best `token_set_ratio` score at or
above the threshold. -/
def phonetic_match (dm : String → String) (store : List CandRow) (p : Parsed) (thr : ℚ) :
    Option Nat × ℚ :=
  let num := pyUpper (pyStrip p.street_number)
  let parsedUnit := pyUpper (pyStrip p.unit)
  if num = "" then (none, 0)
  else
    let rows := sameHouse store num
    if rows = [] then (none, 0)
    else
      let pf := parsedFullStr p
      let target := dm (pyUpper p.street_name)
      let phon := rows.filter (fun r => dm (pyUpper r.street) == target)
      if phon = [] then (none, 0)
      else if parsedUnit ≠ "" then
        let phon2 := phon.filter (fun r => pyUpper (pyStrip r.aptnbr) == parsedUnit)
        if phon2 = [] then (none, 0)
        else
          let b := phoneticBest pf phon2 (none, 0)
          if thr ≤ b.2 then (b.1, pyRound2 b.2) else (none, 0)
      else
        let b := phoneticBest pf phon (none, 0)
        if thr ≤ b.2 then (b.1, pyRound2 b.2) else (none, 0)

/-- The candidate loop of `embedding_match`: skip candidates failing the unit
filter, otherwise track the strictly best similarity `sim` of the parsed full
street string against the candidate's stripped uppercased display address. -/
def embedBest (sim : String → String → ℚ) (pf parsedUnit : String) :
    List CandRow → Option Nat × ℚ → Option Nat × ℚ
  | [], b => b
  | r :: rs, b =>
    if parsedUnit ≠ "" ∧ parsedUnit ≠ pyUpper (pyStrip r.aptnbr) then
      embedBest sim pf parsedUnit rs b
    else
      embedBest sim pf parsedUnit rs
        (if sim pf (pyUpper (pyStrip r.address)) > b.2
         then (some r.hhid, sim pf (pyUpper (pyStrip r.address))) else b)

/-- `fallback.embedding_match`: block on house number, filter by unit, take the
best cosine similarity (the oracle `sim`), and on success report the score
rescaled by 100 and rounded. -/
def embedding_match (sim : String → String → ℚ) (store : List CandRow) (p : Parsed)
    (thr : ℚ) : Option Nat × ℚ :=
  let pf := parsedFullStr p
  let num := pyUpper (pyStrip p.street_number)
  let parsedUnit := pyUpper (pyStrip p.unit)
  if num = "" then (none, 0)
  else
    let rows := sameHouse store num
    if rows = [] then (none, 0)
    else
      let b := embedBest sim pf parsedUnit rows (none, 0)
      if pyTruthy b.1 = true ∧ thr ≤ b.2 then (b.1, pyRound2 (b.2 * 100)) else (none, 0)

/-- The top normalized result of the external validator: the
`address_components` of `results[0]` plus its `accuracy`. -/
structure ApiResult where
  number : String
  predirectional : String
  street : String
  suffix : String
  postdirectional : String
  secondaryunit : String
  secondarynumber : String
  zip : String
  accuracy : ℚ
deriving DecidableEq

/-- Outcome of the validator HTTP request: a transport/timeout/non-success
error (the `except` branch of `api_match`), or a parsed body with its list of
results. -/
inductive ApiOutcome where
  | reqError
  | ok (results : List ApiResult)
deriving DecidableEq

/-- The free-text query of `api_match`:
`f"{street_part}, {city_part}, {state_part} {zip_part}".strip()`. -/
def buildFull (p : Parsed) : String :=
  pyStrip (p.original_address ++ ", " ++ p.city ++ ", " ++ p.state ++ " " ++ p.zip_code)

/-- The WHERE predicate of `api_match`'s structural SQL lookup, per row
(fallback.py lines 187-203), over the normalized components extracted from the
validator's top result. -/
def apiPredB (house street zip5 predir postdir strtype aptType unit : String)
    (r : CandRow) : Bool :=
  (r.house == house)
    && (r.street == street)
    && (r.zip == zip5)
    && ((predir == "") || (r.predir == predir))
    && ((postdir == "") || (r.postdir == postdir))
    && ((strtype == "") || (r.strtype == strtype))
    && ((aptType == "" && r.apttype == "") || (aptType != "" && r.apttype == aptType))
    && ((unit == "" && r.aptnbr == "") || (unit != "" && r.aptnbr == unit))

/-- `fallback.api_match`: missing key, empty query and request errors are soft
failures with distinct reason strings; on a response, the top result's
normalized components drive a structural lookup against the store. -/
def api_match (key : Option String) (p : Parsed) (resp : ApiOutcome)
    (store : List CandRow) : Option Nat × ℚ × String :=
  match key with
  | none => (none, 0, "no api key")
  | some _ =>
    let full := buildFull p
    if full = "" then (none, 0, "no original_address")
    else
      match resp with
      | ApiOutcome.reqError => (none, 0, "api request error")
      | ApiOutcome.ok results =>
        match results with
        | [] => (none, 0, "no api result")
        | top :: _ =>
          let house := pyUpper (pyStrip top.number)
          let predir := pyUpper (pyStrip top.predirectional)
          let street := pyUpper (pyStrip top.street)
          let strtype := pyUpper (pyStrip top.suffix)
          let postdir := pyUpper (pyStrip top.postdirectional)
          let aptType := pyUpper (pyStrip top.secondaryunit)
          let unit := pyUpper (pyStrip top.secondarynumber)
          let zip5 := pyStrip top.zip
          match store.find? (fun r => apiPredB house street zip5 predir postdir strtype aptType unit r) with
          | some r => (some r.hhid, top.accuracy, "api match")
          | none => (none, 0, "api returned but no match")

/-- The per-transaction output record assembled by `match_all` (main.py):
candidate id, confidence score, match type and reason. -/
structure MatchResult where
  hhid : Option Nat
  score : ℚ
  mtype : String
  reason : String
deriving DecidableEq

/-- The waterfall body of `main.match_all` for one parsed row: exact, then
fuzzy, phonetic, embedding and the API stage, stopping at the first truthy
hhid; the intermediate rejection strings (`'no exact match'`, `'low fuzzy
score'`, `'no phonetic match'`, `'low embedding score'`) are dead stores in the
source — each is overwritten before any use — so only the final values appear.
Thresholds are the call sites' values: fuzzy 70, phonetic 70, embedding 0.75. -/
def matchOne (dm : String → String) (sim : String → String → ℚ) (key : Option String)
    (resp : ApiOutcome) (store : List CandRow) (p : Parsed) : MatchResult :=
  let e := exact_match store p
  if pyTruthy e.1 then ⟨e.1, e.2, "exact", "exact match"⟩
  else
    let f := fuzzy_match store p 70
    if pyTruthy f.1 then ⟨f.1, f.2, "fuzzy", "fuzzy match"⟩
    else
      let ph := phonetic_match dm store p 70
      if pyTruthy ph.1 then ⟨ph.1, ph.2, "phonetic", "phonetic match"⟩
      else
        let em := embedding_match sim store p (3 / 4)
        if pyTruthy em.1 then ⟨em.1, em.2, "embedding", "embedding match"⟩
        else
          let a := api_match key p resp store
          if pyTruthy a.1 then ⟨a.1, a.2.1, "api", a.2.2⟩
          else ⟨a.1, a.2.1, "unmatched", a.2.2⟩

/-- The identity phonetic oracle, used to instantiate concrete runs. -/
def dmId : String → String := fun s => s

/-- The constantly-zero similarity oracle, used to instantiate concrete runs. -/
def sim0 : String → String → ℚ := fun _ _ => 0


/-! ### Helper lemmas -/

theorem stringDataAppend (a b : String) : (a ++ b).data = a.data ++ b.data := by
  cases a
  cases b
  rfl

theorem stringDataInj (a b : String) (h : a.data = b.data) : a = b := by
  cases a
  cases b
  rw [show (⟨_⟩ : String) = ⟨_⟩ from congrArg String.mk h]

theorem mem_dropWhile_of_not_ws {c : Char} (hc : c.isWhitespace = false) :
    ∀ l : List Char, c ∈ l → c ∈ l.dropWhile Char.isWhitespace := by
  intro l
  induction l with
  | nil => simp
  | cons a t ih =>
    intro hm
    rw [List.dropWhile_cons]
    by_cases ha : a.isWhitespace = true
    · simp only [ha, if_true]
      rcases List.mem_cons.mp hm with h | h
      · rw [h] at hc
        rw [hc] at ha
        cases ha
      · exact ih h
    · simp only [ha, if_false]
      exact hm

theorem mem_pyStripList {c : Char} (hc : c.isWhitespace = false) {l : List Char}
    (h : c ∈ l) : c ∈ pyStripList l := by
  unfold pyStripList
  have h1 := mem_dropWhile_of_not_ws hc l h
  have h2 : c ∈ (l.dropWhile Char.isWhitespace).reverse := List.mem_reverse.mpr h1
  have h3 := mem_dropWhile_of_not_ws hc _ h2
  exact List.mem_reverse.mpr h3

theorem buildFull_ne_empty (p : Parsed) : buildFull p ≠ "" := by
  intro h
  have hmem : ',' ∈ (p.original_address ++ ", " ++ p.city ++ ", " ++ p.state
      ++ " " ++ p.zip_code).data := by
    simp only [stringDataAppend, List.mem_append]
    have : ',' ∈ (", " : String).data := by decide
    tauto
  have hmem2 : ',' ∈ (buildFull p).data := mem_pyStripList (by decide) hmem
  rw [h] at hmem2
  exact (by decide : ¬ (',' ∈ ("" : String).data)) hmem2

theorem roundHalfEven_ge (y : ℚ) : y - 1 / 2 ≤ (roundHalfEven y : ℚ) := by
  unfold roundHalfEven
  have h1 : ((⌊y⌋ : ℤ) : ℚ) ≤ y := Int.floor_le y
  have h2 : y < (⌊y⌋ : ℚ) + 1 := Int.lt_floor_add_one y
  split_ifs with ha hb hc
  · linarith
  · push_cast
    linarith
  · linarith
  · push_cast
    linarith

theorem pyRound2_ge (x : ℚ) : x - 1 / 200 ≤ pyRound2 x := by
  have h := roundHalfEven_ge (100 * x)
  unfold pyRound2
  rw [le_div_iff₀ (by norm_num : (0 : ℚ) < 100)]
  linarith

theorem pyRound2_zero : pyRound2 0 = 0 := by
  with_unfolding_all decide

theorem lexLe_total : ∀ x y : List Char, lexLe x y = true ∨ lexLe y x = true := by
  intro x
  induction x with
  | nil =>
    intro y
    left
    rfl
  | cons a as ih =>
    intro y
    cases y with
    | nil => right; rfl
    | cons b bs =>
      by_cases hab : a < b
      · left
        simp [lexLe, hab]
      · by_cases hba : b < a
        · right
          simp [lexLe, hba]
        · rcases ih bs with h | h
          · left
            simp [lexLe, hab, hba, h]
          · right
            simp [lexLe, hab, hba, h]

theorem lexLe_trans :
    ∀ x y z : List Char, lexLe x y = true → lexLe y z = true → lexLe x z = true := by
  intro x
  induction x with
  | nil => intros; rfl
  | cons a as ih =>
    intro y z h1 h2
    cases y with
    | nil => simp [lexLe] at h1
    | cons b bs =>
      cases z with
      | nil => simp [lexLe] at h2
      | cons c cs =>
        by_cases hab : a < b
        · by_cases hbc : b < c
          · have hac : a < c := lt_trans hab hbc
            simp [lexLe, hac]
          · by_cases hcb : c < b
            · simp [lexLe, hbc, hcb] at h2
            · have he : b = c := le_antisymm (not_lt.mp hcb) (not_lt.mp hbc)
              rw [← he]
              simp [lexLe, hab]
        · by_cases hba : b < a
          · simp [lexLe, hab, hba] at h1
          · have he : a = b := le_antisymm (not_lt.mp hba) (not_lt.mp hab)
            subst he
            simp only [lexLe, lt_irrefl, if_neg, if_false] at h1
            by_cases hac : a < c
            · simp [lexLe, hac]
            · by_cases hca : c < a
              · simp [lexLe, hac, hca] at h2
              · have he2 : a = c := le_antisymm (not_lt.mp hca) (not_lt.mp hac)
                subst he2
                simp only [lexLe, lt_irrefl, if_neg, if_false] at h2 ⊢
                exact ih bs cs h1 h2

theorem lexLe_antisymm :
    ∀ x y : List Char, lexLe x y = true → lexLe y x = true → x = y := by
  intro x
  induction x with
  | nil =>
    intro y _ h2
    cases y with
    | nil => rfl
    | cons b bs => simp [lexLe] at h2
  | cons a as ih =>
    intro y h1 h2
    cases y with
    | nil => simp [lexLe] at h1
    | cons b bs =>
      by_cases hab : a < b
      · simp [lexLe, hab, lt_asymm hab] at h2
      · by_cases hba : b < a
        · simp [lexLe, hab, hba] at h1
        · have he : a = b := le_antisymm (not_lt.mp hba) (not_lt.mp hab)
          subst he
          simp only [lexLe, lt_irrefl, if_neg, if_false] at h1 h2
          rw [ih bs h1 h2]

instance : IsTotal String rStrLe :=
  ⟨fun a b => lexLe_total a.data b.data⟩

instance : IsTrans String rStrLe :=
  ⟨fun a b c h1 h2 => lexLe_trans a.data b.data c.data h1 h2⟩

instance : IsAntisymm String rStrLe :=
  ⟨fun a b h1 h2 => stringDataInj a b (lexLe_antisymm a.data b.data h1 h2)⟩

theorem insertionSort_eq_of_perm {l1 l2 : List String} (hp : l1.Perm l2) :
    List.insertionSort rStrLe l1 = List.insertionSort rStrLe l2 :=
  List.eq_of_perm_of_sorted
    ((List.perm_insertionSort rStrLe l1).trans (hp.trans (List.perm_insertionSort rStrLe l2).symm))
    (List.sorted_insertionSort rStrLe l1) (List.sorted_insertionSort rStrLe l2)

theorem fuzzyBest_score_le (p : Parsed) :
    ∀ (l : List CandRow) (b : Best), b.score ≤ (fuzzyBest p l b).score := by
  intro l
  induction l with
  | nil => intro b; exact le_refl _
  | cons r rs ih =>
    intro b
    simp only [fuzzyBest]
    refine le_trans ?_ (ih _)
    split_ifs with h
    · simpa using le_of_lt h
    · exact le_refl _

theorem fuzzyBest_mem_le (p : Parsed) :
    ∀ (l : List CandRow) (b : Best), ∀ r ∈ l, candScore p r ≤ (fuzzyBest p l b).score := by
  intro l
  induction l with
  | nil => intro b r hr; cases hr
  | cons q qs ih =>
    intro b r hr
    simp only [fuzzyBest]
    rcases List.mem_cons.mp hr with h | h
    · subst h
      refine le_trans ?_ (fuzzyBest_score_le p qs _)
      split_ifs with hq
      · exact le_refl _
      · exact not_lt.mp hq
    · exact ih _ r h

theorem fuzzyBest_cases (p : Parsed) :
    ∀ (l : List CandRow) (b : Best), fuzzyBest p l b = b ∨
      ∃ r ∈ l, fuzzyBest p l b = ⟨some r.hhid, candScore p r, r.apttype, r.aptnbr⟩ := by
  intro l
  induction l with
  | nil => intro b; left; rfl
  | cons q qs ih =>
    intro b
    simp only [fuzzyBest]
    split_ifs with hq
    · rcases ih (⟨some q.hhid, candScore p q, q.apttype, q.aptnbr⟩ : Best) with h | ⟨r, hr, he⟩
      · right
        exact ⟨q, List.mem_cons_self q qs, h⟩
      · right
        exact ⟨r, List.mem_cons_of_mem _ hr, he⟩
    · rcases ih b with h | ⟨r, hr, he⟩
      · left
        exact h
      · right
        exact ⟨r, List.mem_cons_of_mem _ hr, he⟩

theorem pyRound2_ge_of_le {thr q : ℚ} (h : thr ≤ q) : thr - 1 / 200 ≤ pyRound2 q :=
  le_trans (by linarith) (pyRound2_ge q)

theorem fuzzy_match_score_of_truthy (store : List CandRow) (p : Parsed) (thr : ℚ)
    (h : pyTruthy (fuzzy_match store p thr).1 = true) :
    thr - 1 / 200 ≤ (fuzzy_match store p thr).2 := by
  simp only [fuzzy_match] at h ⊢
  split_ifs at h ⊢ with h1 h2
  · simp [pyTruthy] at h
  · exact pyRound2_ge_of_le h2.1
  · simp [pyTruthy] at h

theorem phonetic_match_score_of_truthy (dm : String → String) (store : List CandRow)
    (p : Parsed) (thr : ℚ)
    (h : pyTruthy (phonetic_match dm store p thr).1 = true) :
    thr - 1 / 200 ≤ (phonetic_match dm store p thr).2 := by
  simp only [phonetic_match] at h ⊢
  split_ifs at h ⊢ with h1 h2 h3 h4 h5 h6 h7
  all_goals first
    | exact pyRound2_ge_of_le (by assumption)
    | simp [pyTruthy] at h

theorem embedding_match_score_of_truthy (sim : String → String → ℚ) (store : List CandRow)
    (p : Parsed) (thr : ℚ)
    (h : pyTruthy (embedding_match sim store p thr).1 = true) :
    100 * thr - 1 / 200 ≤ (embedding_match sim store p thr).2 := by
  simp only [embedding_match] at h ⊢
  split_ifs at h ⊢ with h1 h2 h3
  · simp [pyTruthy] at h
  · simp [pyTruthy] at h
  · exact pyRound2_ge_of_le (by linarith [h3.2])
  · simp [pyTruthy] at h

/-! ### Concrete instances for witnesses and counterexamples -/

def c1store : List CandRow := [⟨1, "1", "", "MAIN", "ST", "", "", "", "1 MAIN ST", "11211"⟩]

def c1p : Parsed := ⟨"1", "", "MAIN", "ST", "", "", "", "1 MAIN ST", "", "", ""⟩

/-! ### Claims -/

/-- C1: the orchestrator runs Exact, Fuzzy, Phonetic, Embedding, API in that
fixed order and stops at the first stage returning a truthy candidate, using
that stage's match type, score and candidate; in particular, when Exact
matches, the result is `exact` independently of the phonetic/embedding/API
oracles, so no later stage can influence the outcome. -/
theorem c1_waterfall_order (dm : String → String) (sim : String → String → ℚ)
    (key : Option String) (resp : ApiOutcome) (store : List CandRow) (p : Parsed) :
    (pyTruthy (exact_match store p).1 = true →
      ∀ (dm2 : String → String) (sim2 : String → String → ℚ) (key2 : Option String)
        (resp2 : ApiOutcome),
        matchOne dm2 sim2 key2 resp2 store p =
          ⟨(exact_match store p).1, (exact_match store p).2, "exact", "exact match"⟩) ∧
    (pyTruthy (exact_match store p).1 = false →
      pyTruthy (fuzzy_match store p 70).1 = true →
      matchOne dm sim key resp store p =
        ⟨(fuzzy_match store p 70).1, (fuzzy_match store p 70).2, "fuzzy", "fuzzy match"⟩) ∧
    (pyTruthy (exact_match store p).1 = false →
      pyTruthy (fuzzy_match store p 70).1 = false →
      pyTruthy (phonetic_match dm store p 70).1 = true →
      matchOne dm sim key resp store p =
        ⟨(phonetic_match dm store p 70).1, (phonetic_match dm store p 70).2, "phonetic",
          "phonetic match"⟩) ∧
    (pyTruthy (exact_match store p).1 = false →
      pyTruthy (fuzzy_match store p 70).1 = false →
      pyTruthy (phonetic_match dm store p 70).1 = false →
      pyTruthy (embedding_match sim store p (3 / 4)).1 = true →
      matchOne dm sim key resp store p =
        ⟨(embedding_match sim store p (3 / 4)).1, (embedding_match sim store p (3 / 4)).2,
          "embedding", "embedding match"⟩) ∧
    (pyTruthy (exact_match store p).1 = false →
      pyTruthy (fuzzy_match store p 70).1 = false →
      pyTruthy (phonetic_match dm store p 70).1 = false →
      pyTruthy (embedding_match sim store p (3 / 4)).1 = false →
      pyTruthy (api_match key p resp store).1 = true →
      matchOne dm sim key resp store p =
        ⟨(api_match key p resp store).1, (api_match key p resp store).2.1, "api",
          (api_match key p resp store).2.2⟩) ∧
    (pyTruthy (exact_match store p).1 = false →
      pyTruthy (fuzzy_match store p 70).1 = false →
      pyTruthy (phonetic_match dm store p 70).1 = false →
      pyTruthy (embedding_match sim store p (3 / 4)).1 = false →
      pyTruthy (api_match key p resp store).1 = false →
      matchOne dm sim key resp store p =
        ⟨(api_match key p resp store).1, (api_match key p resp store).2.1, "unmatched",
          (api_match key p resp store).2.2⟩) := by
  refine ⟨?_, ?_, ?_, ?_, ?_, ?_⟩
  · intro h dm2 sim2 key2 resp2
    simp [matchOne, h]
  · intro h1 h2
    simp [matchOne, h1, h2]
  · intro h1 h2 h3
    simp [matchOne, h1, h2, h3]
  · intro h1 h2 h3 h4
    simp [matchOne, h1, h2, h3, h4]
  · intro h1 h2 h3 h4 h5
    simp [matchOne, h1, h2, h3, h4, h5]
  · intro h1 h2 h3 h4 h5
    simp [matchOne, h1, h2, h3, h4, h5]

/-- Witness for C1: a store and query on which Exact matches, so the full
pipeline returns the exact result. -/
theorem c1_waterfall_order_witness :
    pyTruthy (exact_match c1store c1p).1 = true ∧
    matchOne dmId sim0 none ApiOutcome.reqError c1store c1p =
      ⟨some 1, 1, "exact", "exact match"⟩ := by
  constructor
  · with_unfolding_all decide
  · exact ((c1_waterfall_order dmId sim0 none ApiOutcome.reqError c1store c1p).1
      (by with_unfolding_all decide) dmId sim0 none ApiOutcome.reqError).trans
      (by with_unfolding_all decide)

def c8store : List CandRow := [⟨1, "", "", "", "", "", "", "", "EMPTY HOUSE ROW", "z"⟩]

def c8p : Parsed := ⟨"", "", "", "", "", "", "", "X", "", "", ""⟩

/-- Counterexample to C8: with an empty parsed street number, the Exact
matcher is not skipped — it runs its structural lookup and can return a
candidate whose house number is also empty. -/
theorem c8_exact_no_skip_counterexample :
    c8p.street_number = "" ∧ exact_match c8store c8p = (some 1, 1) := by
  constructor
  · rfl
  · with_unfolding_all decide

/-- C8 (amended): the Fuzzy, Phonetic and Embedding stages are skipped when
the stripped street number is empty, returning `(None, 0.0)` for every
candidate store (no lookup can influence the result); the Exact matcher has no
such guard. -/
theorem c8_blocking_skip_amended (dm : String → String) (sim : String → String → ℚ)
    (store : List CandRow) (p : Parsed) (thr1 thr2 thr3 : ℚ)
    (h : pyStrip p.street_number = "") :
    fuzzy_match store p thr1 = (none, 0) ∧
    phonetic_match dm store p thr2 = (none, 0) ∧
    embedding_match sim store p thr3 = (none, 0) := by
  have hu : pyUpper (pyStrip p.street_number) = "" := by
    rw [h]
    with_unfolding_all decide
  refine ⟨?_, ?_, ?_⟩
  · simp [fuzzy_match, h]
  · simp [phonetic_match, hu]
  · simp [embedding_match, hu]

def c8wstore : List CandRow := [⟨2, "9", "", "OAK", "", "", "", "", "9 OAK", "z"⟩]

def c8wp : Parsed := ⟨" ", "", "OAK", "", "", "", "", "OAK", "", "", ""⟩

/-- Witness for the amended C8 at a whitespace street number and a nonempty
store. -/
theorem c8_blocking_skip_amended_witness :
    pyStrip c8wp.street_number = "" ∧ fuzzy_match c8wstore c8wp 70 = (none, 0) := by
  refine ⟨by with_unfolding_all decide, ?_⟩
  exact (c8_blocking_skip_amended dmId sim0 c8wstore c8wp 70 70 (3 / 4)
    (by with_unfolding_all decide)).1

/-- C10: for every parsed input (the `original_address` key is always present,
as `parse_address` always sets it), the API matcher's empty-query branch is
unreachable — the query is built with literal comma separators, so it is
nonempty after stripping even with every component empty — and the reason
`no original_address` is never returned. -/
theorem c10_no_original_address_unreachable (key : Option String) (p : Parsed)
    (resp : ApiOutcome) (store : List CandRow) :
    buildFull p ≠ "" ∧ (api_match key p resp store).2.2 ≠ "no original_address" := by
  refine ⟨buildFull_ne_empty p, ?_⟩
  cases key with
  | none =>
    simp only [api_match]
    decide
  | some k =>
    simp only [api_match]
    rw [if_neg (buildFull_ne_empty p)]
    cases resp with
    | reqError =>
      dsimp only
      decide
    | ok results =>
      cases results with
      | nil =>
        dsimp only
        decide
      | cons top rest =>
        dsimp only
        split <;> dsimp only <;> decide

/-- C4: with a nonempty (stripped) street number, the Fuzzy matcher tracks the
single highest-scoring same-house candidate — the tracked best bounds every
candidate's token-sort score and, unless no candidate ever beat the initial
tracker, is one of the candidates — and returns its hhid with the rounded
score exactly when the best score reaches the threshold and the parsed unit
string-equals the best candidate's unit number (unit type plays no role);
otherwise it returns `(None, 0.0)`. -/
theorem c4_fuzzy_contract (store : List CandRow) (p : Parsed) (thr : ℚ)
    (h : pyStrip p.street_number ≠ "") :
    (∀ r ∈ sameHouse store (pyStrip p.street_number),
      candScore p r ≤ (fuzzyBest p (sameHouse store (pyStrip p.street_number)) best0).score) ∧
    (fuzzyBest p (sameHouse store (pyStrip p.street_number)) best0 = best0 ∨
      ∃ r ∈ sameHouse store (pyStrip p.street_number),
        fuzzyBest p (sameHouse store (pyStrip p.street_number)) best0 =
          ⟨some r.hhid, candScore p r, r.apttype, r.aptnbr⟩) ∧
    fuzzy_match store p thr =
      (if thr ≤ (fuzzyBest p (sameHouse store (pyStrip p.street_number)) best0).score ∧
          p.unit = (fuzzyBest p (sameHouse store (pyStrip p.street_number)) best0).aptnbr then
        ((fuzzyBest p (sameHouse store (pyStrip p.street_number)) best0).hhid,
          pyRound2 (fuzzyBest p (sameHouse store (pyStrip p.street_number)) best0).score)
      else (none, 0)) := by
  refine ⟨fuzzyBest_mem_le p _ best0, fuzzyBest_cases p _ best0, ?_⟩
  simp only [fuzzy_match]
  rw [if_neg h]

def c4store : List CandRow := [⟨3, "9", "", "ELM", "", "", "", "", "9 ELM", "z"⟩]

def c4p : Parsed := ⟨"9", "", "ELM", "", "", "", "", "9 ELM", "", "", ""⟩

/-- Witness for C4 at a one-candidate store where the best score is 100 and
the unit gate passes. -/
theorem c4_fuzzy_contract_witness :
    pyStrip c4p.street_number ≠ "" ∧ fuzzy_match c4store c4p 70 = (some 3, 100) := by
  refine ⟨by with_unfolding_all decide, ?_⟩
  refine ((c4_fuzzy_contract c4store c4p 70 (by with_unfolding_all decide)).2.2).trans ?_
  with_unfolding_all decide

/-- C9: the unit-number gate of the Fuzzy matcher applies only to the single
highest-scoring candidate: if the tracked best reaches the threshold but its
unit number differs from the parsed one, the stage returns `(None, 0.0)`, even
when another same-house candidate reaches the threshold with the right unit
number. -/
theorem c9_fuzzy_unit_gate_only_best (store : List CandRow) (p : Parsed) (thr : ℚ)
    (h1 : pyStrip p.street_number ≠ "")
    (h2 : thr ≤ (fuzzyBest p (sameHouse store (pyStrip p.street_number)) best0).score)
    (h3 : p.unit ≠ (fuzzyBest p (sameHouse store (pyStrip p.street_number)) best0).aptnbr)
    (h4 : ∃ r ∈ sameHouse store (pyStrip p.street_number),
      thr ≤ candScore p r ∧ r.aptnbr = p.unit) :
    fuzzy_match store p thr = (none, 0) := by
  simp only [fuzzy_match]
  rw [if_neg h1, if_neg]
  intro hc
  exact h3 hc.2

def c9store : List CandRow :=
  [⟨1, "5", "", "MAIN", "", "", "", "2", "5 MAIN 2", "z"⟩,
   ⟨2, "5", "", "MAIN", "", "", "", "1", "5 MAIN 1", "z"⟩]

def c9p : Parsed := ⟨"5", "", "MAIN", "", "", "", "1", "5 MAIN 1", "", "", ""⟩

/-- Witness for C9: two same-house candidates both scoring 100; the first
(kept by the strict-improvement tracker) has the wrong unit, the second has
the right one, and the stage still rejects. -/
theorem c9_fuzzy_unit_gate_only_best_witness :
    (pyStrip c9p.street_number ≠ "" ∧
      70 ≤ (fuzzyBest c9p (sameHouse c9store (pyStrip c9p.street_number)) best0).score ∧
      c9p.unit ≠ (fuzzyBest c9p (sameHouse c9store (pyStrip c9p.street_number)) best0).aptnbr ∧
      ∃ r ∈ sameHouse c9store (pyStrip c9p.street_number),
        70 ≤ candScore c9p r ∧ r.aptnbr = c9p.unit) ∧
    fuzzy_match c9store c9p 70 = (none, 0) := by
  refine ⟨⟨by with_unfolding_all decide, by with_unfolding_all decide,
    by with_unfolding_all decide, by with_unfolding_all decide⟩, ?_⟩
  exact c9_fuzzy_unit_gate_only_best c9store c9p 70 (by with_unfolding_all decide)
    (by with_unfolding_all decide) (by with_unfolding_all decide)
    (by with_unfolding_all decide)

def c6p : Parsed := ⟨"5", "", "MAIN", "", "", "", "", "5 MAIN", "", "", ""⟩

def c6storeB : List CandRow := [⟨1, "5", "", "ZZZZ", "", "", "", "", "5 ZZZZ", "z"⟩]

/-- Counterexample to C6: the Fuzzy matcher returns the identical reasonless
`(None, 0.0)` both when the blocking key has no candidates (empty store) and
when candidates exist but the best score is below threshold, and the
orchestrator's outputs for the two runs are equal — the recorded reason is the
API stage's `no api key` in both, not any fuzzy-specific string. -/
theorem c6_fuzzy_reason_counterexample :
    sameHouse ([] : List CandRow) (pyStrip c6p.street_number) = [] ∧
    sameHouse c6storeB (pyStrip c6p.street_number) ≠ [] ∧
    (fuzzyBest c6p (sameHouse c6storeB (pyStrip c6p.street_number)) best0).score < 70 ∧
    fuzzy_match [] c6p 70 = (none, 0) ∧
    fuzzy_match c6storeB c6p 70 = (none, 0) ∧
    matchOne dmId sim0 none ApiOutcome.reqError [] c6p =
      matchOne dmId sim0 none ApiOutcome.reqError c6storeB c6p ∧
    (matchOne dmId sim0 none ApiOutcome.reqError [] c6p).reason = "no api key" := by
  refine ⟨?_, ?_, ?_, ?_, ?_, ?_, ?_⟩ <;> with_unfolding_all decide

/-- C6 (amended): the Fuzzy matcher reports no rejection reason at all — in
both failure cases (no candidate at the blocking key, and best score below
threshold) its entire output is the same `(None, 0.0)`; the orchestrator
records the single fixed string `low fuzzy score` either way, a dead store
that later stages overwrite. -/
theorem c6_fuzzy_failure_indistinct_amended (store : List CandRow) (p : Parsed) (thr : ℚ)
    (h : pyStrip p.street_number ≠ "") :
    (sameHouse store (pyStrip p.street_number) = [] → fuzzy_match store p thr = (none, 0)) ∧
    ((fuzzyBest p (sameHouse store (pyStrip p.street_number)) best0).score < thr →
      fuzzy_match store p thr = (none, 0)) := by
  constructor
  · intro hpool
    simp only [fuzzy_match]
    rw [if_neg h, hpool]
    split_ifs with hg
    · show ((none : Option Nat), pyRound2 (0 : ℚ)) = (none, 0)
      rw [pyRound2_zero]
    · rfl
  · intro hlt
    simp only [fuzzy_match]
    rw [if_neg h, if_neg]
    intro hc
    exact absurd hc.1 (not_le.mpr hlt)

/-- Witness for the amended C6 at an empty store. -/
theorem c6_fuzzy_failure_indistinct_amended_witness :
    pyStrip c6p.street_number ≠ "" ∧ fuzzy_match [] c6p 70 = (none, 0) :=
  ⟨by with_unfolding_all decide,
    (c6_fuzzy_failure_indistinct_amended [] c6p 70 (by with_unfolding_all decide)).1
      (by with_unfolding_all decide)⟩

def c3store : List CandRow := [⟨1, "7", "", "AAAA", "B", "", "", "", "7 AAAA B", "z"⟩]

def c3p : Parsed := ⟨"7", "", "AAAA", "", "", "", "", "7 AAAA", "", "", ""⟩

/-- Counterexample to C3: a run in which the emitted confidence is 80 — the
fuzzy stage's rounded 0–100 token-sort score is stored in the MatchResult
unchanged, so the confidence does not lie in [0.0, 1.0]. -/
theorem c3_confidence_counterexample :
    matchOne dmId sim0 none ApiOutcome.reqError c3store c3p =
      ⟨some 1, 80, "fuzzy", "fuzzy match"⟩ ∧
    1 < (matchOne dmId sim0 none ApiOutcome.reqError c3store c3p).score := by
  constructor <;> with_unfolding_all decide

/-- C3 (amended): the confidence placed in the MatchResult is the stage's raw
score with no renormalization at the boundary: an exact match stores 1.0 and
an API match stores the validator's accuracy, but a fuzzy or phonetic match
stores the rounded 0–100 token score (at least the threshold 70) and an
embedding match stores the cosine similarity rescaled by 100 (threshold 0.75,
so at least about 75) — hence whenever the match type is fuzzy, phonetic or
embedding, the confidence exceeds 1. -/
theorem c3_confidence_scale_amended (dm : String → String) (sim : String → String → ℚ)
    (key : Option String) (resp : ApiOutcome) (store : List CandRow) (p : Parsed)
    (h : (matchOne dm sim key resp store p).mtype = "fuzzy" ∨
      (matchOne dm sim key resp store p).mtype = "phonetic" ∨
      (matchOne dm sim key resp store p).mtype = "embedding") :
    1 < (matchOne dm sim key resp store p).score := by
  simp only [matchOne] at h ⊢
  split_ifs at h ⊢ with h1 h2 h3 h4 h5
  · exact absurd h (by decide :
      ¬(("exact" : String) = "fuzzy" ∨ ("exact" : String) = "phonetic" ∨
        ("exact" : String) = "embedding"))
  · have hs := fuzzy_match_score_of_truthy store p 70 h2
    show (1 : ℚ) < (fuzzy_match store p 70).2
    linarith
  · have hs := phonetic_match_score_of_truthy dm store p 70 h3
    show (1 : ℚ) < (phonetic_match dm store p 70).2
    linarith
  · have hs := embedding_match_score_of_truthy sim store p (3 / 4) h4
    show (1 : ℚ) < (embedding_match sim store p (3 / 4)).2
    linarith
  · exact absurd h (by decide :
      ¬(("api" : String) = "fuzzy" ∨ ("api" : String) = "phonetic" ∨
        ("api" : String) = "embedding"))
  · exact absurd h (by decide :
      ¬(("unmatched" : String) = "fuzzy" ∨ ("unmatched" : String) = "phonetic" ∨
        ("unmatched" : String) = "embedding"))

/-- Witness for the amended C3 at the concrete fuzzy-match run with
confidence 80. -/
theorem c3_confidence_scale_amended_witness :
    (matchOne dmId sim0 none ApiOutcome.reqError c3store c3p).mtype = "fuzzy" ∧
    1 < (matchOne dmId sim0 none ApiOutcome.reqError c3store c3p).score :=
  ⟨by with_unfolding_all decide,
    c3_confidence_scale_amended dmId sim0 none ApiOutcome.reqError c3store c3p
      (Or.inl (by with_unfolding_all decide))⟩

theorem nullEquivIff (a b : String) : (a = b ∨ (a = "" ∧ b = "")) ↔ a = b :=
  ⟨fun h => h.elim id (fun hc => hc.1.trans hc.2.symm), Or.inl⟩

theorem pairNullEquivIff (a b c d : String) :
    ((a = c ∧ b = d) ∨ (((c = "" ∧ d = "") ∧ a = "") ∧ b = "")) ↔ (a = c ∧ b = d) :=
  ⟨fun h => h.elim id
    (fun hc => ⟨hc.1.2.trans hc.1.1.1.symm, hc.2.trans hc.1.1.2.symm⟩), Or.inl⟩

theorem apiUnitIff (q a : String) : ((q = "" ∧ a = "") ∨ (q ≠ "" ∧ a = q)) ↔ a = q := by
  constructor
  · intro h
    rcases h with ⟨h1, h2⟩ | ⟨h1, h2⟩
    · rw [h1, h2]
    · exact h2
  · intro h
    by_cases hq : q = ""
    · exact Or.inl ⟨hq, h.trans hq⟩
    · exact Or.inr ⟨hq, h⟩

def c2store : List CandRow := [⟨7, "1", "N", "MAIN", "", "", "", "", "1 N MAIN", "11211"⟩]

def c2p : Parsed := ⟨"1", "", "MAIN", "", "", "", "", "1 MAIN", "", "", "11211"⟩

def c2comp : ApiResult := ⟨"1", "", "MAIN", "", "", "", "", "11211", 1⟩

/-- Counterexample to C2: the API structural lookup succeeds although the
validator-side predirectional is empty while the candidate's is `N` — an
empty API-side directional is a wildcard, not the Exact matcher's
null-equivalence (under which one empty and one nonempty side must fail). -/
theorem c2_api_wildcard_counterexample :
    c2comp.predirectional = "" ∧
    (∀ r ∈ c2store, r.predir = "N") ∧
    api_match (some "K") c2p (ApiOutcome.ok [c2comp]) c2store = (some 7, 1, "api match") := by
  refine ⟨rfl, ?_, ?_⟩ <;> with_unfolding_all decide

/-- C2 (amended): per-row characterization of the two structural lookups: the
Exact predicate reduces to plain per-field equality on every compared field
(unit type and unit number included, which is exactly null-equivalence for
empty-string-normalized data), and the API predicate matches house, street,
zip, unit type and unit number by the same plain equality, but treats an
empty API-side predirectional, postdirectional or street type as a wildcard
accepting any candidate value (only a nonempty API-side value forces
equality). -/
theorem c2_api_lookup_refined (p : Parsed) (r : CandRow)
    (house street zip5 predir postdir strtype aptType unit : String) :
    (exactPredB p r = true ↔
      (r.house = p.street_number ∧ r.predir = p.predir ∧ r.street = p.street_name ∧
        r.strtype = p.street_type ∧ r.postdir = p.postdir ∧ r.apttype = p.apt_type ∧
        r.aptnbr = p.unit)) ∧
    (apiPredB house street zip5 predir postdir strtype aptType unit r = true ↔
      (r.house = house ∧ r.street = street ∧ r.zip = zip5 ∧
        (predir = "" ∨ r.predir = predir) ∧ (postdir = "" ∨ r.postdir = postdir) ∧
        (strtype = "" ∨ r.strtype = strtype) ∧ r.apttype = aptType ∧ r.aptnbr = unit)) := by
  constructor
  · simp only [exactPredB, Bool.and_eq_true, Bool.or_eq_true, beq_iff_eq]
    rw [nullEquivIff, nullEquivIff, pairNullEquivIff]
    tauto
  · simp only [apiPredB, Bool.and_eq_true, Bool.or_eq_true, beq_iff_eq, bne_iff_ne]
    rw [apiUnitIff, apiUnitIff]
    tauto

/-- Counterexample to C5: the two embedded scoring functions are not
extensionally equal — the fuzzy scorer `token_sort_ratio` gives 50 on the pair
("A", "A B") while the phonetic tie-break scorer `token_set_ratio` gives 100
(its containment shortcut), so the phonetic stage does not use the same
similarity function as the fuzzy stage. -/
theorem c5_scoring_differs_counterexample :
    token_sort_ratio "A" "A B" = 50 ∧ token_set_ratio "A" "A B" = 100 ∧
    ¬((50 : ℚ) = 100) := by
  refine ⟨?_, ?_, by norm_num⟩ <;> with_unfolding_all decide

/-- C5 (amended): the Fuzzy matcher scores with `token_sort_ratio` while the
Phonetic matcher's tie-break scores with the distinct `token_set_ratio`
applied to the candidate's full uppercased display address; the two functions
are not extensionally equal, but both are order-insensitive — permuting the
whitespace tokens of either argument leaves either score unchanged. -/
theorem c5_order_insensitive_amended (s s' t t' : String)
    (hs : (pySplit s').Perm (pySplit s)) (ht : (pySplit t').Perm (pySplit t)) :
    token_sort_ratio s' t' = token_sort_ratio s t ∧
    token_set_ratio s' t' = token_set_ratio s t := by
  have hss : sortTokens s' = sortTokens s := by
    unfold sortTokens
    exact insertionSort_eq_of_perm hs
  have htt : sortTokens t' = sortTokens t := by
    unfold sortTokens
    exact insertionSort_eq_of_perm ht
  constructor
  · unfold token_sort_ratio
    rw [hss, htt]
  · unfold token_set_ratio sortedDedup
    rw [hss, htt]

/-- Witness for the amended C5 on a concrete token permutation. -/
theorem c5_order_insensitive_amended_witness :
    (pySplit "MAIN N").Perm (pySplit "N MAIN") ∧
    token_sort_ratio "MAIN N" "N MAIN ST" = token_sort_ratio "N MAIN" "N MAIN ST" :=
  ⟨by with_unfolding_all decide,
    (c5_order_insensitive_amended "N MAIN" "MAIN N" "N MAIN ST" "N MAIN ST"
      (by with_unfolding_all decide) (List.Perm.refl _)).1⟩

def c7p : Parsed := ⟨"", "", "", "", "", "", "", "", "", "", ""⟩

/-- Counterexample to C7: with every address component empty — the situation
the claimed reason `no original address` targets — and a failing request, the
query built with literal commas strips to `", ,"`, which is nonempty, so the
matcher proceeds to the request and reports `api request error`; no input
yields a reason spelled `no original address` (the dead branch's literal is
`no original_address`). -/
theorem c7_reason_counterexample :
    buildFull c7p = ", ," ∧
    api_match (some "K") c7p ApiOutcome.reqError [] = (none, 0, "api request error") ∧
    ¬(("api request error" : String) = "no original address") := by
  refine ⟨?_, ?_, by decide⟩ <;> with_unfolding_all decide

/-- C7 (amended): the API matcher propagates no failure to the orchestrator:
a missing key yields `(None, 0.0, "no api key")` and a request/timeout/
non-success error yields `(None, 0.0, "api request error")`; the empty-query
guard (whose reason literal is `no original_address`) can never fire because
the query survives stripping, and when every stage fails the orchestrator
falls through to an `unmatched` result carrying the API stage's reason rather
than aborting. -/
theorem c7_soft_failures_amended (dm : String → String) (sim : String → String → ℚ)
    (p : Parsed) (store : List CandRow) (resp : ApiOutcome) :
    api_match none p resp store = (none, 0, "no api key") ∧
    (∀ k, api_match (some k) p ApiOutcome.reqError store = (none, 0, "api request error")) ∧
    buildFull p ≠ "" ∧
    (pyTruthy (exact_match store p).1 = false →
      pyTruthy (fuzzy_match store p 70).1 = false →
      pyTruthy (phonetic_match dm store p 70).1 = false →
      pyTruthy (embedding_match sim store p (3 / 4)).1 = false →
      matchOne dm sim none resp store p = ⟨none, 0, "unmatched", "no api key"⟩) := by
  refine ⟨rfl, ?_, buildFull_ne_empty p, ?_⟩
  · intro k
    simp only [api_match]
    rw [if_neg (buildFull_ne_empty p)]
  · intro h1 h2 h3 h4
    have h5 : pyTruthy (api_match none p resp store).1 = false := rfl
    simp [matchOne, api_match, h1, h2, h3, h4, h5]
    rfl

/-- Witness for the amended C7: with no key configured and an empty store,
every stage fails and the match falls through to `unmatched` with reason
`no api key`. -/
theorem c7_soft_failures_amended_witness :
    pyTruthy (exact_match [] c7p).1 = false ∧
    matchOne dmId sim0 none ApiOutcome.reqError [] c7p =
      ⟨none, 0, "unmatched", "no api key"⟩ :=
  ⟨by with_unfolding_all decide,
    (c7_soft_failures_amended dmId sim0 c7p [] ApiOutcome.reqError).2.2.2
      (by with_unfolding_all decide) (by with_unfolding_all decide)
      (by with_unfolding_all decide) (by with_unfolding_all decide)⟩
